import Mathlib

/-!
Shallow embedding of the `xinput-device` repository (Xbox 360 wireless
receiver USB emulation) and proofs about its claims.

Bytes are modelled as `Nat` (values < 256 where it matters), byte slices as
`List Nat`.  Signed machine integers (`i8`, `i16`) are modelled as `Int`
with two's-complement serialisation made explicit (`% 256`, `% 65536`).
-/

set_option maxHeartbeats 1000000

/-- Little-endian byte of an `i8` value (Rust `i8::to_le_bytes`):
the two's-complement byte. -/
def i8ToLeByte (v : Int) : Nat := (v % 256).toNat

/-- Little-endian bytes of an `i16` value (Rust `i16::to_le_bytes`):
the two's-complement 16-bit value split into (low, high) bytes. -/
def i16ToLeBytes (v : Int) : Nat × Nat :=
  ((v % 65536).toNat % 256, (v % 65536).toNat / 256)

/-- Rust `u16::from_le_bytes([lo, hi])` for byte values `lo hi < 256`. -/
def u16FromLeBytes (lo hi : Nat) : Nat := lo + 256 * hi

/-- Rust `u16::to_le_bytes` of a `u16` value, as the pair (low byte, high byte). -/
def u16ToLeBytes (v : Nat) : Nat × Nat := (v % 256, v / 256 % 256)

/-- The `XboxGamepad` struct of `controller.rs`: 15 button booleans, two
signed 8-bit triggers, four signed 16-bit stick axes. -/
structure XboxGamepad where
  dpad_up : Bool
  dpad_down : Bool
  dpad_left : Bool
  dpad_right : Bool
  btn_start : Bool
  btn_back : Bool
  btn_left_thumb : Bool
  btn_right_thumb : Bool
  btn_left_shoulder : Bool
  btn_right_shoulder : Bool
  btn_guide : Bool
  btn_a : Bool
  btn_b : Bool
  btn_x : Bool
  btn_y : Bool
  trigger_left : Int
  trigger_right : Int
  thumb_left_x : Int
  thumb_left_y : Int
  thumb_right_x : Int
  thumb_right_y : Int

/-- The `map_button` helper closure of `From<XboxGamepad> for ControllerData`. -/
def map_button (to_bit : Nat) (button : Bool) : Nat :=
  if button then 1 <<< to_bit else 0

namespace SrcCrate

/-- Encoder `From<XboxGamepad> for ControllerData` as written in
`src/controller.rs` of the top-level crate.  Note byte 1 maps
`btn_y` to bit 6 and `btn_x` to bit 7. -/
def fromXboxGamepad (joy : XboxGamepad) : List Nat :=
  let byte0 := map_button 0 joy.dpad_up
    ||| map_button 1 joy.dpad_down
    ||| map_button 2 joy.dpad_left
    ||| map_button 3 joy.dpad_right
    ||| map_button 4 joy.btn_start
    ||| map_button 5 joy.btn_back
    ||| map_button 6 joy.btn_left_thumb
    ||| map_button 7 joy.btn_right_thumb
  let byte1 := map_button 0 joy.btn_left_shoulder
    ||| map_button 1 joy.btn_right_shoulder
    ||| map_button 2 joy.btn_guide
    ||| map_button 4 joy.btn_a
    ||| map_button 5 joy.btn_b
    ||| map_button 6 joy.btn_y
    ||| map_button 7 joy.btn_x
  let lx := i16ToLeBytes joy.thumb_left_x
  let ly := i16ToLeBytes joy.thumb_left_y
  let rx := i16ToLeBytes joy.thumb_right_x
  let ry := i16ToLeBytes joy.thumb_right_y
  [byte0, byte1,
   i8ToLeByte joy.trigger_left, i8ToLeByte joy.trigger_right,
   lx.1, lx.2, ly.1, ly.2, rx.1, rx.2, ry.1, ry.2]

end SrcCrate

namespace XinputDevice

/-- Encoder `From<XboxGamepad> for ControllerData` as written in
`xinput-device/src/controller.rs` (the library crate).  Byte 1 maps
`btn_x` to bit 6 and `btn_y` to bit 7. -/
def fromXboxGamepad (joy : XboxGamepad) : List Nat :=
  let byte0 := map_button 0 joy.dpad_up
    ||| map_button 1 joy.dpad_down
    ||| map_button 2 joy.dpad_left
    ||| map_button 3 joy.dpad_right
    ||| map_button 4 joy.btn_start
    ||| map_button 5 joy.btn_back
    ||| map_button 6 joy.btn_left_thumb
    ||| map_button 7 joy.btn_right_thumb
  let byte1 := map_button 0 joy.btn_left_shoulder
    ||| map_button 1 joy.btn_right_shoulder
    ||| map_button 2 joy.btn_guide
    ||| map_button 4 joy.btn_a
    ||| map_button 5 joy.btn_b
    ||| map_button 6 joy.btn_x
    ||| map_button 7 joy.btn_y
  let lx := i16ToLeBytes joy.thumb_left_x
  let ly := i16ToLeBytes joy.thumb_left_y
  let rx := i16ToLeBytes joy.thumb_right_x
  let ry := i16ToLeBytes joy.thumb_right_y
  [byte0, byte1,
   i8ToLeByte joy.trigger_left, i8ToLeByte joy.trigger_right,
   lx.1, lx.2, ly.1, ly.2, rx.1, rx.2, ry.1, ry.2]

/-- The `Default` impl of `xinput-device/src/controller.rs`: all buttons
released, triggers at `i8::MAX`, sticks centred. -/
def defaultGamepad : XboxGamepad where
  dpad_up := false
  dpad_down := false
  dpad_left := false
  dpad_right := false
  btn_start := false
  btn_back := false
  btn_left_thumb := false
  btn_right_thumb := false
  btn_left_shoulder := false
  btn_right_shoulder := false
  btn_guide := false
  btn_a := false
  btn_b := false
  btn_x := false
  btn_y := false
  trigger_left := 127
  trigger_right := 127
  thumb_left_x := 0
  thumb_left_y := 0
  thumb_right_x := 0
  thumb_right_y := 0

end XinputDevice

/-- A snapshot with only `btn_x` pressed (sticks centred, triggers zero). -/
def onlyBtnX : XboxGamepad :=
  { XinputDevice.defaultGamepad with btn_x := true, trigger_left := 0, trigger_right := 0 }

/-- A snapshot with only `btn_y` pressed (sticks centred, triggers zero). -/
def onlyBtnY : XboxGamepad :=
  { XinputDevice.defaultGamepad with btn_y := true, trigger_left := 0, trigger_right := 0 }

/-- C1: the two copies of the encoder disagree on byte 1.  For a snapshot
with only `btn_x` set the library encoder (`xinput-device/src/controller.rs`)
yields byte 1 = 0x40 as the claim states, while the top-level crate's
encoder (`src/controller.rs`) yields 0x80; symmetrically for `btn_y`. -/
theorem c1_byte1_x_y_divergence :
    (XinputDevice.fromXboxGamepad onlyBtnX).getD 1 0 = 0x40
    ∧ (XinputDevice.fromXboxGamepad onlyBtnY).getD 1 0 = 0x80
    ∧ (SrcCrate.fromXboxGamepad onlyBtnX).getD 1 0 = 0x80
    ∧ (SrcCrate.fromXboxGamepad onlyBtnY).getD 1 0 = 0x40 := by
  refine ⟨?_, ?_, ?_, ?_⟩ <;> rfl

/-- The `OutData` enum of `xinput.rs` (host-to-device command, classified). -/
inductive OutData where
  | connectionStatus : OutData
  | ack : OutData
  | led (led : Nat) : OutData
  | rumble (strong weak : Nat) : OutData
  | unknown (raw : List Nat) : OutData
  deriving DecidableEq, Repr

/-- The classifier `OutData::from_raw` of `xinput.rs`: length-12 check, then
first-match-wins on the Rust slice patterns.  Rust's guard fall-through on
the LED arm is written as an explicit `else`: when the guard fails the later
`[0x00,0x01,...]` rumble pattern cannot match a `[0x00,0x00,0x08,...]`
slice, so control reaches the catch-all `Unknown`. -/
def OutData.from_raw (out_data : List Nat) : OutData :=
  if out_data.length ≠ 12 then .unknown out_data else
  match out_data with
  | 0x08 :: 0x00 :: 0x0F :: 0xC0 :: _ => .connectionStatus
  | 0x00 :: 0x00 :: 0x00 :: 0x40 :: _ => .ack
  | 0x00 :: 0x00 :: 0x08 :: l :: _ =>
      if l &&& 0x40 = 0x40 then .led (l &&& 0x0F) else .unknown out_data
  | 0x00 :: 0x01 :: 0x0F :: 0xC0 :: 0x00 :: strong :: weak :: _ =>
      .rumble strong weak
  | _ => .unknown out_data

/-- Classifier written from the spec's words (§4.4): only 12-byte payloads
are matched; matching is by literal byte prefix, first match wins, in the
documented priority order; anything else is `Unrecognized`. -/
def classify_spec (raw : List Nat) : OutData :=
  if raw.length ≠ 12 then .unknown raw
  else if raw.take 4 = [0x08, 0x00, 0x0F, 0xC0] then .connectionStatus
  else if raw.take 4 = [0x00, 0x00, 0x00, 0x40] then .ack
  else if raw.take 3 = [0x00, 0x00, 0x08] ∧ raw.getD 3 0 &&& 0x40 = 0x40 then
    .led (raw.getD 3 0 &&& 0x0F)
  else if raw.take 5 = [0x00, 0x01, 0x0F, 0xC0, 0x00] then
    .rumble (raw.getD 5 0) (raw.getD 6 0)
  else .unknown raw

example : OutData.from_raw [8, 0, 0x0F, 0xC0, 0, 0, 0, 0, 0, 0, 0, 0] = .connectionStatus := by decide
example : OutData.from_raw [0, 0, 0, 0x40, 0, 0, 0, 0, 0, 0, 0, 0] = .ack := by decide
example : OutData.from_raw [0, 0, 8, 0x42, 0, 0, 0, 0, 0, 0, 0, 0] = .led 2 := by decide
example : OutData.from_raw [0, 0, 8, 0x02, 0, 0, 0, 0, 0, 0, 0, 0] = .unknown [0, 0, 8, 0x02, 0, 0, 0, 0, 0, 0, 0, 0] := by decide
example : OutData.from_raw [0, 1, 0x0F, 0xC0, 0, 0x7F, 0x10, 0, 0, 0, 0, 0] = .rumble 0x7F 0x10 := by decide
example : OutData.from_raw [0, 0] = .unknown [0, 0] := by decide

/-- C2: `OutData::from_raw` is a total pure classifier agreeing everywhere
with the spec's description: any slice whose length is not 12 yields
`Unrecognized` carrying the raw bytes, and 12-byte slices are classified by
first-match-wins prefix matching in the documented priority order
(connection-status query, ack, LED with the 0x40 marker, rumble), with
everything else — including an LED-shaped payload missing the 0x40 marker —
yielding `Unrecognized`. -/
theorem c2_from_raw_matches_spec (d : List Nat) :
    OutData.from_raw d = classify_spec d := by
  by_cases hlen : d.length = 12
  · rcases d with _ | ⟨b0, _ | ⟨b1, _ | ⟨b2, _ | ⟨b3, _ | ⟨b4, _ | ⟨b5, _ | ⟨b6, rest⟩⟩⟩⟩⟩⟩⟩ <;>
      simp_all [OutData.from_raw, classify_spec]
    split <;> simp_all
    rename_i h1 h2 h3 h4
    have n1 : ¬(b0 = 8 ∧ b1 = 0 ∧ b2 = 15 ∧ b3 = 192) := by
      rintro ⟨rfl, rfl, rfl, rfl⟩
      exact absurd rfl (h1 _ rfl rfl rfl rfl)
    have n2 : ¬(b0 = 0 ∧ b1 = 0 ∧ b2 = 0 ∧ b3 = 64) := by
      rintro ⟨rfl, rfl, rfl, rfl⟩
      exact absurd rfl (h2 _ rfl rfl rfl rfl)
    have n3 : ¬(b0 = 0 ∧ b1 = 0 ∧ b2 = 8) := by
      rintro ⟨rfl, rfl, rfl⟩
      exact absurd rfl (h3 b3 _ rfl rfl rfl rfl)
    have n4 : ¬(b0 = 0 ∧ b1 = 1 ∧ b2 = 15 ∧ b3 = 192 ∧ b4 = 0) := by
      rintro ⟨rfl, rfl, rfl, rfl, rfl⟩
      exact absurd rfl (h4 b5 b6 _ rfl rfl rfl rfl rfl rfl rfl)
    simp [n1, n2, n3, n4]
  · simp [OutData.from_raw, classify_spec, hlen]

/-- The `ControllerInfoState` enum of `xinput.rs`.  The spec's names map as
`Disconnected` = `disconnected`, `AwaitingAck1` = `unknown1`,
`AwaitingAck2` = `unknown2`, `Paired` = `none`. -/
inductive ControllerInfoState where
  | disconnected : ControllerInfoState
  | none : ControllerInfoState
  | unknown1 : ControllerInfoState
  | unknown2 : ControllerInfoState
  deriving DecidableEq, Repr

/-- Combined engine state: the `XInput` struct's `controller_info_state`,
the shared `State`'s `rumble` register (a `u16`), the log of messages
written to the interrupt-IN endpoint (oldest first), and the `run` loop's
`idle_msg_deadline` local (`Option.none` models `Instant::MAX`, i.e. a
disarmed timer). -/
structure XInputState where
  controller_info_state : ControllerInfoState
  rumble : Nat
  sent : List (List Nat)
  idle_msg_deadline : Option Nat
  deriving DecidableEq, Repr

/-- `XInput::send_connection_status`: sets `controller_info_state` and
writes the 2-byte connection-status frame. -/
def send_connection_status (available : Bool) (s : XInputState) : XInputState :=
  if available then
    { s with controller_info_state := .unknown1, sent := s.sent ++ [[0x08, 0x80]] }
  else
    { s with controller_info_state := .disconnected, sent := s.sent ++ [[0x08, 0x08]] }

/-- The fixed 29-byte `controller_info` packet of `XInput::handle_out_data`. -/
def controller_info : List Nat :=
  [0x00, 0x0F, 0x00, 0xF0,
   0xF0,
   0xCC,
   0xFF, 0xFF, 0xFF, 0xFF,
   0x58, 0x91, 0xB3, 0xF0, 0x00, 0x09,
   0x13,
   0xA3,
   0x20, 0x1D, 0x30, 0x03, 0x40, 0x01, 0x50, 0x01, 0xFF, 0xFF, 0xFF]

/-- `XInput::handle_out_data`: dispatch one classified OUT command. -/
def handle_out_data (out_data : OutData) (s : XInputState) : XInputState :=
  match out_data with
  | .connectionStatus =>
      send_connection_status (!(s.controller_info_state == .disconnected)) s
  | .led _ => s
  | .ack =>
      match s.controller_info_state with
      | .disconnected | .none => s
      | .unknown1 =>
          { s with controller_info_state := .unknown2,
                   sent := s.sent ++ [controller_info] }
      | .unknown2 => { s with controller_info_state := .none }
  | .rumble strong weak => { s with rumble := u16FromLeBytes strong weak }
  | .unknown _ => s

/-- `State::rumble`: load the `u16` register and split it into the
(strong, weak) little-endian byte pair. -/
def XInputState.rumble_pair (s : XInputState) : Nat × Nat := u16ToLeBytes s.rumble

/-- C3: an `Ack` in `AwaitingAck1` (`Unknown1`) appends exactly the fixed
29-byte controller-info packet, whose first ten bytes are
0x00,0x0F,0x00,0xF0,0xF0,0xCC,0xFF,0xFF,0xFF,0xFF, and moves the state to
`AwaitingAck2` (`Unknown2`); an `Ack` in `AwaitingAck2` moves the state to
`Paired` (`None`) and sends nothing. -/
theorem c3_ack_handshake (s : XInputState) :
    (s.controller_info_state = .unknown1 →
      handle_out_data .ack s =
        { s with controller_info_state := .unknown2,
                 sent := s.sent ++ [controller_info] }
      ∧ controller_info.length = 29
      ∧ controller_info.take 10
          = [0x00, 0x0F, 0x00, 0xF0, 0xF0, 0xCC, 0xFF, 0xFF, 0xFF, 0xFF])
    ∧ (s.controller_info_state = .unknown2 →
      handle_out_data .ack s = { s with controller_info_state := .none }) := by
  constructor
  · intro h
    refine ⟨?_, by decide, by decide⟩
    simp [handle_out_data, h]
  · intro h
    simp [handle_out_data, h]

/-- Closed witness for `c3_ack_handshake` at a concrete state. -/
theorem c3_ack_handshake_witness :
    handle_out_data .ack
        { controller_info_state := .unknown1, rumble := 0, sent := [],
          idle_msg_deadline := Option.none }
      = { controller_info_state := .unknown2, rumble := 0,
          sent := [controller_info], idle_msg_deadline := Option.none } :=
  ((c3_ack_handshake
    { controller_info_state := .unknown1, rumble := 0, sent := [],
      idle_msg_deadline := Option.none }).1 rfl).1

/-- C4: a `ConnectionStatusQuery` in `Disconnected` writes `[0x08, 0x08]`
and leaves the state `Disconnected`; in any other state it writes
`[0x08, 0x80]` and moves the state to `AwaitingAck1` (`Unknown1`). -/
theorem c4_connection_status_query (s : XInputState) :
    (s.controller_info_state = .disconnected →
      handle_out_data .connectionStatus s =
        { s with controller_info_state := .disconnected,
                 sent := s.sent ++ [[0x08, 0x08]] })
    ∧ (s.controller_info_state ≠ .disconnected →
      handle_out_data .connectionStatus s =
        { s with controller_info_state := .unknown1,
                 sent := s.sent ++ [[0x08, 0x80]] }) := by
  constructor
  · intro h
    simp [handle_out_data, send_connection_status, h]
  · intro h
    cases hs : s.controller_info_state <;>
      simp_all [handle_out_data, send_connection_status]

/-- Closed witness for `c4_connection_status_query` at concrete states. -/
theorem c4_connection_status_query_witness :
    handle_out_data .connectionStatus
        { controller_info_state := .disconnected, rumble := 0, sent := [],
          idle_msg_deadline := Option.none }
      = { controller_info_state := .disconnected, rumble := 0,
          sent := [[0x08, 0x08]], idle_msg_deadline := Option.none }
    ∧ handle_out_data .connectionStatus
        { controller_info_state := .none, rumble := 0, sent := [],
          idle_msg_deadline := Option.none }
      = { controller_info_state := .unknown1, rumble := 0,
          sent := [[0x08, 0x80]], idle_msg_deadline := Option.none } :=
  ⟨(c4_connection_status_query
      { controller_info_state := .disconnected, rumble := 0, sent := [],
        idle_msg_deadline := Option.none }).1 rfl,
   (c4_connection_status_query
      { controller_info_state := .none, rumble := 0, sent := [],
        idle_msg_deadline := Option.none }).2 (by decide)⟩

/-- C9: `Led`, `Rumble` and `Unrecognized` commands never change the pairing
state; an `Ack` in `Disconnected` or `Paired` (`None`) leaves the whole
state unchanged (no message, no transition); and only `Rumble` can modify
the shared rumble register. -/
theorem c9_frame_effects (s : XInputState) :
    (∀ l, (handle_out_data (.led l) s).controller_info_state
        = s.controller_info_state)
    ∧ (∀ strong weak, (handle_out_data (.rumble strong weak) s).controller_info_state
        = s.controller_info_state)
    ∧ (∀ raw, (handle_out_data (.unknown raw) s).controller_info_state
        = s.controller_info_state)
    ∧ (s.controller_info_state = .disconnected ∨ s.controller_info_state = .none →
        handle_out_data .ack s = s)
    ∧ (∀ d, (handle_out_data d s).rumble ≠ s.rumble →
        ∃ strong weak, d = .rumble strong weak) := by
  refine ⟨fun _ => rfl, fun _ _ => rfl, fun _ => rfl, ?_, ?_⟩
  · rintro (h | h) <;> simp [handle_out_data, h]
  · intro d hd
    cases d with
    | rumble strong weak => exact ⟨strong, weak, rfl⟩
    | connectionStatus =>
        exfalso
        apply hd
        simp only [handle_out_data, send_connection_status]
        split <;> rfl
    | ack =>
        exfalso
        apply hd
        simp only [handle_out_data]
        cases s.controller_info_state <;> rfl
    | led l => exact absurd rfl hd
    | unknown raw => exact absurd rfl hd

/-- Closed witness for `c9_frame_effects` at a concrete state. -/
theorem c9_frame_effects_witness :
    handle_out_data .ack
        { controller_info_state := .none, rumble := 7, sent := [],
          idle_msg_deadline := Option.none }
      = { controller_info_state := .none, rumble := 7, sent := [],
          idle_msg_deadline := Option.none } :=
  (c9_frame_effects
    { controller_info_state := .none, rumble := 7, sent := [],
      idle_msg_deadline := Option.none }).2.2.2.1 (Or.inr rfl)

/-- The three event sources raced by `XInput::run`'s `select3`, plus the
OUT-transfer error branch: a newly published `ControllerData` frame, the
idle timer firing, a completed OUT read, or a failed OUT read. -/
inductive Event where
  | frame (data : List Nat) : Event
  | idleElapsed : Event
  | outTransfer (raw : List Nat) : Event
  | outError : Event
  deriving DecidableEq, Repr

/-- The 29-byte gamepad-data frame built in the first `select3` branch of
`XInput::run`: bytes 0-5 are the header 0x00,0x01,0x00,0xF0,0x00,0x13,
bytes 6-17 the 12-byte `ControllerData`, the rest zero. -/
def dataFrame (xinput_data : List Nat) : List Nat :=
  [0x00, 0x01, 0x00, 0xF0, 0x00, 0x13] ++ xinput_data ++ List.replicate 11 0

/-- The 29-byte idle keep-alive frame of the second `select3` branch:
all zero except byte 3 = 0xF0. -/
def idleFrame : List Nat := [0x00, 0x00, 0x00, 0xF0] ++ List.replicate 25 0

/-- One iteration of the `XInput::run` loop, handling the event that won the
`select3` race at time `now`.  `idle_msg_deadline = Option.none` models
`Instant::MAX`. -/
def run_step (now : Nat) (e : Event) (s : XInputState) : XInputState :=
  match e with
  | .frame xinput_data =>
      let s1 :=
        if s.controller_info_state == .disconnected then
          send_connection_status true s
        else s
      { s1 with sent := s1.sent ++ [dataFrame xinput_data],
                idle_msg_deadline := some (now + 11) }
  | .idleElapsed =>
      { s with sent := s.sent ++ [idleFrame], idle_msg_deadline := Option.none }
  | .outTransfer raw => handle_out_data (OutData.from_raw raw) s
  | .outError => s

/-- A timed event trace is valid from `s` when every idle-timer event fires
only while the deadline is armed (`Timer::at(Instant::MAX)` never
completes). -/
def validRun (s : XInputState) : List (Nat × Event) → Prop
  | [] => True
  | (t, e) :: rest =>
      (e = .idleElapsed → s.idle_msg_deadline ≠ Option.none)
      ∧ validRun (run_step t e s) rest

/-- Run the loop over a timed event trace. -/
def runEvents : List (Nat × Event) → XInputState → XInputState
  | [], s => s
  | (t, e) :: rest, s => runEvents rest (run_step t e s)

/-- Number of idle-timer events in a trace (each sends one idle frame). -/
def countIdle (evs : List (Nat × Event)) : Nat :=
  (evs.filter (fun te => te.2 == Event.idleElapsed)).length

lemma handle_out_data_deadline (d : OutData) (s : XInputState) :
    (handle_out_data d s).idle_msg_deadline = s.idle_msg_deadline := by
  cases d <;>
    simp only [handle_out_data, send_connection_status] <;>
    split <;> rfl

lemma run_step_deadline_of_quiet (t : Nat) (e : Event) (s : XInputState)
    (hf : ∀ f, e ≠ .frame f) (hi : e ≠ .idleElapsed) :
    (run_step t e s).idle_msg_deadline = s.idle_msg_deadline := by
  cases e with
  | frame f => exact absurd rfl (hf f)
  | idleElapsed => exact absurd rfl hi
  | outTransfer raw => exact handle_out_data_deadline _ _
  | outError => rfl

lemma countIdle_zero_of_disarmed :
    ∀ (evs : List (Nat × Event)) (s : XInputState),
      s.idle_msg_deadline = Option.none → validRun s evs →
      (∀ te ∈ evs, ∀ f, te.2 ≠ Event.frame f) → countIdle evs = 0 := by
  intro evs
  induction evs with
  | nil => intro s _ _ _; rfl
  | cons te rest ih =>
      intro s hdl hv hnf
      obtain ⟨t, e⟩ := te
      obtain ⟨hidle, hv'⟩ := hv
      cases e with
      | frame f => exact absurd rfl (hnf (t, .frame f) (by simp) f)
      | idleElapsed => exact absurd hdl (hidle rfl)
      | outTransfer raw =>
          have : countIdle rest = 0 := by
            refine ih _ ?_ hv' fun te h => hnf te (by simp [h])
            rw [run_step_deadline_of_quiet _ _ _ (by intro f h; cases h)
              (by intro h; cases h)]
            exact hdl
          simpa [countIdle] using this
      | outError =>
          have : countIdle rest = 0 := by
            refine ih _ ?_ hv' fun te h => hnf te (by simp [h])
            rw [run_step_deadline_of_quiet _ _ _ (by intro f h; cases h)
              (by intro h; cases h)]
            exact hdl
          simpa [countIdle] using this

lemma countIdle_le_one_of_no_frames :
    ∀ (evs : List (Nat × Event)) (s : XInputState),
      validRun s evs →
      (∀ te ∈ evs, ∀ f, te.2 ≠ Event.frame f) → countIdle evs ≤ 1 := by
  intro evs
  induction evs with
  | nil => intro s _ _; simp [countIdle]
  | cons te rest ih =>
      intro s hv hnf
      obtain ⟨t, e⟩ := te
      obtain ⟨hidle, hv'⟩ := hv
      cases e with
      | frame f => exact absurd rfl (hnf (t, .frame f) (by simp) f)
      | idleElapsed =>
          have h0 : countIdle rest = 0 := by
            refine countIdle_zero_of_disarmed rest (run_step t .idleElapsed s) rfl hv'
              fun te h => hnf te (by simp [h])
          simp only [countIdle, List.filter] at h0 ⊢
          simp [h0]
      | outTransfer raw =>
          have := ih (run_step t (.outTransfer raw) s) hv' fun te h => hnf te (by simp [h])
          simpa [countIdle] using this
      | outError =>
          have := ih (run_step t .outError s) hv' fun te h => hnf te (by simp [h])
          simpa [countIdle] using this

/-- C6: handling the idle-deadline event sends exactly the one 29-byte frame
that is all zero except byte 3 = 0xF0 and disarms the deadline; and in any
valid trace without a published frame, at most one idle keep-alive is ever
sent (no repeated idle frames without an intervening data send). -/
theorem c6_idle_keepalive :
    (∀ (now : Nat) (s : XInputState),
      run_step now .idleElapsed s
        = { s with sent := s.sent ++ [idleFrame],
                   idle_msg_deadline := Option.none })
    ∧ idleFrame.length = 29
    ∧ idleFrame.getD 3 0 = 0xF0
    ∧ (∀ i, i < 29 → i ≠ 3 → idleFrame.getD i 0 = 0)
    ∧ (∀ (evs : List (Nat × Event)) (s : XInputState),
        validRun s evs →
        (∀ te ∈ evs, ∀ f, te.2 ≠ Event.frame f) → countIdle evs ≤ 1) :=
  ⟨fun _ _ => rfl, by decide, by decide, by decide, countIdle_le_one_of_no_frames⟩

/-- Closed witness for `c6_idle_keepalive` on a concrete armed trace. -/
theorem c6_idle_keepalive_witness :
    countIdle [(5, Event.idleElapsed)] ≤ 1 :=
  c6_idle_keepalive.2.2.2.2 [(5, Event.idleElapsed)]
    { controller_info_state := .none, rumble := 0, sent := [],
      idle_msg_deadline := some 5 }
    ⟨fun _ => by simp, trivial⟩
    (by
      intro te h f
      rw [List.mem_singleton] at h
      subst h
      exact fun hh => nomatch hh)

/-- C5: handling a newly published 12-byte frame first emits the connected
status `[0x08, 0x80]` and moves to `AwaitingAck1` when disconnected, then
sends the 29-byte data frame with header 0x00,0x01,0x00,0xF0,0x00,0x13,
the `ControllerFrame` at bytes 6-17 and zeros at bytes 18-28, and arms the
idle deadline 11 time-units in the future. -/
theorem c5_frame_publish (now : Nat) (f : List Nat) (s : XInputState)
    (hf : f.length = 12) :
    (run_step now (.frame f) s).sent
      = s.sent
        ++ (if s.controller_info_state = .disconnected then [[0x08, 0x80]] else [])
        ++ [dataFrame f]
    ∧ (s.controller_info_state = .disconnected →
        (run_step now (.frame f) s).controller_info_state = .unknown1)
    ∧ (dataFrame f).length = 29
    ∧ (dataFrame f).take 6 = [0x00, 0x01, 0x00, 0xF0, 0x00, 0x13]
    ∧ ((dataFrame f).drop 6).take 12 = f
    ∧ (dataFrame f).drop 18 = List.replicate 11 0
    ∧ (run_step now (.frame f) s).idle_msg_deadline = some (now + 11) := by
  refine ⟨?_, ?_, by simp [dataFrame, hf], rfl, ?_, ?_, ?_⟩
  · by_cases h : s.controller_info_state = .disconnected <;>
      simp [run_step, send_connection_status, h]
  · intro h
    simp [run_step, send_connection_status, h]
  · have : (dataFrame f).drop 6 = f ++ List.replicate 11 0 := by
      simp [dataFrame]
    rw [this]
    simpa using List.take_left' hf
  · show ([0x00, 0x01, 0x00, 0xF0, 0x00, 0x13] ++ f ++ List.replicate 11 0).drop 18
      = List.replicate 11 0
    refine List.drop_left' ?_
    simp [hf]
  · by_cases h : s.controller_info_state = .disconnected <;>
      simp [run_step, send_connection_status, h]

/-- Closed witness for `c5_frame_publish` at a concrete frame and state. -/
theorem c5_frame_publish_witness :
    ([1, 2, 3, 4, 5, 6, 7, 8, 9, 10, 11, 12] : List Nat).length = 12
    ∧ (run_step 0 (.frame [1, 2, 3, 4, 5, 6, 7, 8, 9, 10, 11, 12])
        { controller_info_state := .disconnected, rumble := 0, sent := [],
          idle_msg_deadline := Option.none }).idle_msg_deadline = some (0 + 11) :=
  ⟨by decide,
   (c5_frame_publish 0 [1, 2, 3, 4, 5, 6, 7, 8, 9, 10, 11, 12]
      { controller_info_state := .disconnected, rumble := 0, sent := [],
        idle_msg_deadline := Option.none } (by decide)).2.2.2.2.2.2⟩

/-- C7: a 12-byte rumble payload classifies to `Rumble(strong, weak)`, and
dispatching the classified command stores the pair so that `State::rumble`
(the read side) returns exactly `(strong, weak)`. -/
theorem c7_rumble_roundtrip (strong weak : Nat) (pad : List Nat)
    (s : XInputState) (hs : strong < 256) (hw : weak < 256)
    (hp : pad.length = 5) :
    OutData.from_raw ([0x00, 0x01, 0x0F, 0xC0, 0x00, strong, weak] ++ pad)
      = .rumble strong weak
    ∧ (handle_out_data
        (OutData.from_raw ([0x00, 0x01, 0x0F, 0xC0, 0x00, strong, weak] ++ pad))
        s).rumble_pair = (strong, weak) := by
  have hclass :
      OutData.from_raw ([0x00, 0x01, 0x0F, 0xC0, 0x00, strong, weak] ++ pad)
        = .rumble strong weak := by
    simp [OutData.from_raw, hp]
  refine ⟨hclass, ?_⟩
  rw [hclass]
  simp only [handle_out_data, XInputState.rumble_pair, u16ToLeBytes,
    u16FromLeBytes]
  rw [Prod.mk.injEq]
  constructor <;> omega

/-- Closed witness for `c7_rumble_roundtrip` at the spec's example payload. -/
theorem c7_rumble_roundtrip_witness :
    OutData.from_raw ([0x00, 0x01, 0x0F, 0xC0, 0x00, 0x7F, 0x10] ++ [0, 0, 0, 0, 0])
      = .rumble 0x7F 0x10
    ∧ (handle_out_data
        (OutData.from_raw ([0x00, 0x01, 0x0F, 0xC0, 0x00, 0x7F, 0x10] ++ [0, 0, 0, 0, 0]))
        { controller_info_state := .none, rumble := 0, sent := [],
          idle_msg_deadline := Option.none }).rumble_pair = (0x7F, 0x10) :=
  c7_rumble_roundtrip 0x7F 0x10 [0, 0, 0, 0, 0]
    { controller_info_state := .none, rumble := 0, sent := [],
      idle_msg_deadline := Option.none }
    (by decide) (by decide) (by decide)

/-- One registered interrupt endpoint: allocated address, max packet size,
poll interval (the arguments of `alt.endpoint_interrupt_in/out`). -/
structure EndpointReg where
  addr : Nat
  max_packet_size : Nat
  interval : Nat
  deriving DecidableEq, Repr

/-- One logical USB function registered on the builder: the (class,
subclass, protocol) triple, its two interrupt endpoints, and the
class-specific descriptor written with `alt.descriptor` as
(descriptor type, payload). -/
structure FunctionReg where
  usb_class : Nat
  usb_subclass : Nat
  usb_protocol : Nat
  ep_in_reg : EndpointReg
  ep_out_reg : EndpointReg
  extra_desc : Nat × List Nat
  deriving DecidableEq, Repr

/-- `XInput::new_wireless`: the list of functions it registers on the USB
builder.  The endpoint addresses the builder allocates are passed in as
`in1_addr`/`out1_addr` (primary) and `in2_addr`/`out2_addr` (secondary,
used only when `headset` is set).  As in the source, `ep_in_idx` is
already `0x80 | addr` and the descriptor payload ORs 0x80 in once more. -/
def new_wireless (in1_addr out1_addr in2_addr out2_addr : Nat)
    (headset : Bool) : List FunctionReg :=
  let ep_in_idx := 0x80 ||| in1_addr
  let ep_out_idx := out1_addr
  let primary : FunctionReg :=
    { usb_class := 0xFF, usb_subclass := 0x5D, usb_protocol := 0x81,
      ep_in_reg := { addr := in1_addr, max_packet_size := 32, interval := 1 },
      ep_out_reg := { addr := out1_addr, max_packet_size := 32, interval := 8 },
      extra_desc :=
        (0x22,
         [0x00, 0x01,
          0x13, 0x80 ||| ep_in_idx, 0x1D, 0x00, 0x17,
          0x01, 0x02, 0x08,
          0x13, ep_out_idx, 0x0C, 0x00, 0x0C,
          0x01, 0x02, 0x08]) }
  if headset then
    let ep_in2_idx := 0x80 ||| in2_addr
    let ep_out2_idx := out2_addr
    let secondary : FunctionReg :=
      { usb_class := 0xFF, usb_subclass := 0x5D, usb_protocol := 0x82,
        ep_in_reg := { addr := in2_addr, max_packet_size := 32, interval := 2 },
        ep_out_reg := { addr := out2_addr, max_packet_size := 32, interval := 4 },
        extra_desc :=
          (0x22,
           [0x00, 0x01, 0x01, 0x80 ||| ep_in2_idx, 0x00, 0x40, 0x01,
            ep_out2_idx, 0x20, 0x00]) }
    [primary, secondary]
  else
    [primary]

/-- C8: `new_wireless` always registers the primary function (class 0xFF,
subclass 0x5D, protocol 0x81, interrupt-IN 32/1, interrupt-OUT 32/8, type
0x22 descriptor with IN capacities 0x1D/0x17, OUT capacities 0x0C/0x0C and
two 0x01,0x02,0x08 triples), and registers the secondary function (protocol
0x82, IN poll 2, OUT poll 4, shorter 0x22 descriptor) exactly when the
`headset` flag is set. -/
theorem c8_new_wireless (in1_addr out1_addr in2_addr out2_addr : Nat)
    (headset : Bool) :
    ∃ p tail,
      new_wireless in1_addr out1_addr in2_addr out2_addr headset = p :: tail
      ∧ p.usb_class = 0xFF ∧ p.usb_subclass = 0x5D ∧ p.usb_protocol = 0x81
      ∧ p.ep_in_reg = { addr := in1_addr, max_packet_size := 32, interval := 1 }
      ∧ p.ep_out_reg = { addr := out1_addr, max_packet_size := 32, interval := 8 }
      ∧ p.extra_desc.1 = 0x22
      ∧ p.extra_desc.2
          = [0x00, 0x01, 0x13, 0x80 ||| (0x80 ||| in1_addr), 0x1D, 0x00, 0x17,
             0x01, 0x02, 0x08, 0x13, out1_addr, 0x0C, 0x00, 0x0C,
             0x01, 0x02, 0x08]
      ∧ (headset = true →
          ∃ sf, tail = [sf]
          ∧ sf.usb_class = 0xFF ∧ sf.usb_subclass = 0x5D
          ∧ sf.usb_protocol = 0x82
          ∧ sf.ep_in_reg = { addr := in2_addr, max_packet_size := 32, interval := 2 }
          ∧ sf.ep_out_reg = { addr := out2_addr, max_packet_size := 32, interval := 4 }
          ∧ sf.extra_desc.1 = 0x22
          ∧ sf.extra_desc.2
              = [0x00, 0x01, 0x01, 0x80 ||| (0x80 ||| in2_addr), 0x00, 0x40,
                 0x01, out2_addr, 0x20, 0x00]
          ∧ sf.extra_desc.2.length < p.extra_desc.2.length)
      ∧ (headset = false → tail = []) := by
  cases headset
  · refine ⟨_, _, rfl, rfl, rfl, rfl, rfl, rfl, rfl, rfl, ?_, ?_⟩
    · intro h
      exact nomatch h
    · intro _
      rfl
  · refine ⟨_, _, rfl, rfl, rfl, rfl, rfl, rfl, rfl, rfl, ?_, ?_⟩
    · intro _
      refine ⟨_, rfl, rfl, rfl, rfl, rfl, rfl, rfl, rfl, ?_⟩
      simp
    · intro h
      exact nomatch h

/-- Closed witness for `c8_new_wireless` with the headset flag set. -/
theorem c8_new_wireless_witness :
    ∃ p tail, new_wireless 1 2 3 4 true = p :: tail ∧ tail.length = 1 := by
  obtain ⟨p, tail, heq, _, _, _, _, _, _, _, hsec, _⟩ :=
    c8_new_wireless 1 2 3 4 true
  obtain ⟨sf, htail, _⟩ := hsec rfl
  exact ⟨p, tail, heq, by rw [htail]; rfl⟩

/-- The `RequestType` enum of `embassy_usb::control` (the constructor
`classType` models the Rust variant `Class`, a Lean keyword). -/
inductive RequestType where
  | standard : RequestType
  | classType : RequestType
  | vendor : RequestType
  | reserved : RequestType
  deriving DecidableEq, Repr

/-- A USB control request as seen by `Handler::control_in`. -/
structure Request where
  request_type : RequestType
  request : Nat
  value : Nat
  index : Nat
  length : Nat
  deriving DecidableEq, Repr

/-- The `SerialNumberHandler` struct: the configured serial-number bytes
(a `[u8; 7]` in the source). -/
structure SerialNumberHandler where
  serial : List Nat
  deriving DecidableEq, Repr

/-- `SerialNumberHandler::control_in`: answer a vendor request 1/1/0 whose
length can hold the serial with exactly the stored bytes (accepted);
anything else is ignored (`None`). -/
def control_in (h : SerialNumberHandler) (req : Request) : Option (List Nat) :=
  if req.request_type = .vendor ∧ req.request = 1 ∧ req.value = 1
      ∧ req.index = 0 ∧ h.serial.length ≤ req.length then
    some h.serial
  else
    Option.none

/-- C10: with a 7-byte serial configured, `control_in` answers with exactly
the stored bytes precisely for a Vendor request with request = 1,
value = 1, index = 0 and requested length at least 7; every other request
(including an otherwise-matching one with length < 7) yields `None`. -/
theorem c10_control_in (serial : List Nat) (req : Request)
    (h7 : serial.length = 7) :
    (control_in ⟨serial⟩ req = some serial ↔
      (req.request_type = .vendor ∧ req.request = 1 ∧ req.value = 1
        ∧ req.index = 0 ∧ 7 ≤ req.length))
    ∧ (¬(req.request_type = .vendor ∧ req.request = 1 ∧ req.value = 1
        ∧ req.index = 0 ∧ 7 ≤ req.length) →
      control_in ⟨serial⟩ req = Option.none) := by
  simp only [control_in, h7]
  by_cases hc : req.request_type = RequestType.vendor ∧ req.request = 1
      ∧ req.value = 1 ∧ req.index = 0 ∧ 7 ≤ req.length
  · simp [hc]
  · simp [hc]

/-- Closed witness for `c10_control_in`: the matching vendor request is
answered with the serial, and the same request with length 6 is not. -/
theorem c10_control_in_witness :
    control_in ⟨[1, 2, 3, 4, 5, 6, 7]⟩
        { request_type := .vendor, request := 1, value := 1, index := 0,
          length := 7 }
      = some [1, 2, 3, 4, 5, 6, 7]
    ∧ control_in ⟨[1, 2, 3, 4, 5, 6, 7]⟩
        { request_type := .vendor, request := 1, value := 1, index := 0,
          length := 6 }
      = Option.none :=
  ⟨(c10_control_in [1, 2, 3, 4, 5, 6, 7]
      { request_type := .vendor, request := 1, value := 1, index := 0,
        length := 7 } (by decide)).1.mpr
    ⟨rfl, rfl, rfl, rfl, by decide⟩,
   (c10_control_in [1, 2, 3, 4, 5, 6, 7]
      { request_type := .vendor, request := 1, value := 1, index := 0,
        length := 6 } (by decide)).2
    (by decide)⟩
